import Mathlib

/-
Verification of the connection and transport layer of a podman varlink
client library. The Python sources are shallowly embedded: context-manager
protocol becomes explicit outcome passing, wall-clock time in the polling
loops is counted in half-second ticks (one tick per sleep of 0.5 s), and
RPC calls are driven by oracles (a function from attempt index to
failure, a function from poll index to reported status). Modules that the
source tree does not include (libs/tunnel.py, libs/errors.py,
libs/__init__.py) are modelled from the design document and marked as such
in their doc comments.
-/

namespace PodmanSpec

/-- Result of parsing a URI, as urlparse is consumed by BaseClient.factory:
only the path, username, hostname and port components are read. The
embedding is parametric in the parse function. -/
structure ParsedUrl where
  path : String
  username : Option String
  hostname : Option String
  port : Option Nat
deriving DecidableEq, Repr

/-- Keyword arguments accepted by BaseClient.factory. extra_keys lists the
keys outside the recognized set, mirroring the set difference computed in
the source. -/
structure Kwargs where
  remote_uri : Option String
  identity_file : Option String
  ignore_hosts : Option Bool
  known_hosts : Option String
  extra_keys : List String
deriving DecidableEq, Repr

/-- Modelled from the spec: libs/tunnel.py is not under src. The Context
record carries exactly the fields passed at the two construction sites in
BaseClient.factory. -/
structure Context where
  uri : String
  interface : String
  local_path : Option String
  remote_path : Option String
  username : Option String
  hostname : Option String
  port : Option Nat
  identity_file : Option String
  ignore_hosts : Option Bool
  known_hosts : Option String
deriving DecidableEq, Repr

/-- The two client shapes BaseClient.factory can return. -/
inductive ClientKind
  | localClient (ctx : Context)
  | remoteClient (ctx : Context)
deriving DecidableEq, Repr

/-- Message template used by BaseClient.factory for missing remote URI
components, with the field name substituted at the front. -/
def requiredMsg (field : String) : String :=
  field ++ " is required, expected format" ++
    " \"ssh://user@hostname[:port]/path_to_socket\"."

/-- Embedding of BaseClient.factory (src/podman/client.py). Checks run in
source order: uri None, interface None, unknown keyword arguments, empty
path of the parsed uri; then either a LocalClient, or the remote URI
validation (username, path, hostname) and a RemoteClient. -/
def factory (parse : String → ParsedUrl) (uri intf : Option String)
    (kw : Kwargs) : Except String ClientKind :=
  match uri with
  | none => Except.error "uri is required and cannot be None"
  | some u =>
    match intf with
    | none => Except.error "interface is required and cannot be None"
    | some i =>
      if kw.extra_keys ≠ [] then
        Except.error
          ("Unknown keyword arguments: " ++ String.intercalate ", " kw.extra_keys)
      else if (parse u).path = "" then
        Except.error
          "path is required for uri, expected format \"unix://path_to_socket\""
      else
        match kw.remote_uri with
        | none =>
          Except.ok (ClientKind.localClient
            ⟨u, i, none, none, none, none, none, none, none, none⟩)
        | some r =>
          if (parse r).username = none then
            Except.error (requiredMsg "username")
          else if (parse r).path = "" then
            Except.error (requiredMsg "path")
          else if (parse r).hostname = none then
            Except.error (requiredMsg "hostname")
          else
            Except.ok (ClientKind.remoteClient
              ⟨u, i, some (parse u).path, some (parse r).path,
                (parse r).username, (parse r).hostname, (parse r).port,
                kw.identity_file, kw.ignore_hosts, kw.known_hosts⟩)

/-- True when the factory returned a client rather than raising. -/
def isOkB : Except String ClientKind → Bool
  | Except.ok _ => true
  | Except.error _ => false

/-- Validity of factory input as the claim states it: uri and interface
present, no unknown keyword arguments, nonempty uri path, and when a
remote uri is supplied its parse has a username, a nonempty path and a
hostname (port optional). -/
def validInput (parse : String → ParsedUrl) (uri intf : Option String)
    (kw : Kwargs) : Bool :=
  match uri, intf with
  | some u, some _ =>
    kw.extra_keys.isEmpty && !((parse u).path == "") &&
      (match kw.remote_uri with
       | none => true
       | some r =>
         (parse r).username.isSome && !((parse r).path == "") &&
           (parse r).hostname.isSome)
  | _, _ => false

/-- Observable channel events of a transport session. BaseClient.close
closes the varlink client object and then the interface handle; the
interface close is the channel release the claims count. -/
inductive Event
  | openChannel
  | clientClose
  | ifaceClose
deriving DecidableEq, Repr

/-- The closed set of typed daemon faults of the design document. -/
inductive TypedError
  | containerNotFound
  | imageNotFound
  | podNotFound
  | noContainerRunning
  | noContainersInPod
  | invalidState
  | podContainerError
  | errorOccurred (msg : String)
deriving DecidableEq, Repr

/-- Exceptions that can be pending when a session context exits: a
varlink protocol error carrying a string identifier and message, or any
other Python exception, abstracted to a tag. -/
inductive PyExc
  | varlinkError (ident msg : String)
  | otherError (tag : Nat)
deriving DecidableEq, Repr

/-- Modelled from the spec: libs/errors.py (error_factory) is not under
src. The design document specifies an exact-match table from daemon error
identifiers to the typed kinds, total via an ErrorOccurred fallback that
carries the original message verbatim; only the NoSuchContainer example
entry is fixed by the document, and the claims here depend only on
dispatch and totality, not on further table contents. -/
def errorTable : List (String × TypedError) :=
  [("NoSuchContainer", TypedError.containerNotFound)]

/-- Modelled from the spec: total translation of a daemon error identifier
to a TypedError, with the fallback carrying the message verbatim. -/
def errorFactory (ident msg : String) : TypedError :=
  match errorTable.lookup ident with
  | some k => k
  | none => TypedError.errorOccurred msg

/-- What the with-statement observes after running a session exit handler:
normal completion, the pending exception propagated unchanged, or a
TypedError raised by the handler in its place. -/
inductive ExitOutcome
  | completed
  | propagated (e : PyExc)
  | raisedTyped (t : TypedError)
deriving DecidableEq, Repr

/-- Events emitted by BaseClient.close: the varlink client close followed
by the interface-handle close. -/
def baseClose : List Event := [Event.clientClose, Event.ifaceClose]

/-- Embedding of LocalClient exit (src/podman/client.py): close the
channel unconditionally, then re-raise a pending VarlinkError through the
fault translator; any other pending exception propagates unchanged. -/
def localExit (e : Option PyExc) : List Event × ExitOutcome :=
  (baseClose,
    match e with
    | some (PyExc.varlinkError ident msg) =>
      ExitOutcome.raisedTyped (errorFactory ident msg)
    | some exc => ExitOutcome.propagated exc
    | none => ExitOutcome.completed)

/-- Embedding of RemoteClient exit (src/podman/client.py): identical to
the local variant; the tunnel shutdown line in the source is commented
out, so only the channel is closed and the tunnel persists. -/
def remoteExit (e : Option PyExc) : List Event × ExitOutcome :=
  (baseClose,
    match e with
    | some (PyExc.varlinkError ident msg) =>
      ExitOutcome.raisedTyped (errorFactory ident msg)
    | some exc => ExitOutcome.propagated exc
    | none => ExitOutcome.completed)

/-- Outcome of the call enclosed by a session context. -/
inductive BodyOutcome
  | normal
  | raises (e : PyExc)
deriving DecidableEq, Repr

/-- Pending exception the interpreter hands to the exit handler. -/
def pendingOf : BodyOutcome → Option PyExc
  | BodyOutcome.normal => none
  | BodyOutcome.raises e => some e

/-- One local session run under with-statement semantics: enter opens the
channel, the body runs, and the exit handler runs exactly once with the
pending exception. -/
def runLocalSession (body : BodyOutcome) : List Event × ExitOutcome :=
  let ex := localExit (pendingOf body)
  (Event.openChannel :: ex.1, ex.2)

/-- One remote session run after a successful acquisition, under the same
with-statement semantics. -/
def runRemoteSession (body : BodyOutcome) : List Event × ExitOutcome :=
  let ex := remoteExit (pendingOf body)
  (Event.openChannel :: ex.1, ex.2)

/-- Recognizer for the channel-release event. -/
def isIfaceClose : Event → Bool
  | Event.ifaceClose => true
  | _ => false

/-- Number of channel releases in a trace. -/
def channelCloses (evs : List Event) : Nat := (evs.filter isIfaceClose).length

/-- Observable result of RemoteClient enter. Tunnels are identified by
numbers; the portal state is the cached tunnel at this context key. -/
structure RemoteEnterResult where
  portalAfter : Option Nat
  usedTunnel : Nat
  created : Bool
  closedTunnels : List Nat
  opened : Bool
  raised : Bool
deriving DecidableEq, Repr

/-- Embedding of RemoteClient enter (src/podman/client.py): look up the
portal at the context uri; if absent, bore a fresh tunnel and store it;
then open the channel, and on any open failure close the tunnel variable,
whichever way it was obtained, and re-raise. -/
def remoteEnter (cached : Option Nat) (freshId : Nat) (openOk : Bool) :
    RemoteEnterResult :=
  let tc : Nat × Bool × Option Nat :=
    match cached with
    | some t => (t, false, some t)
    | none => (freshId, true, some freshId)
  if openOk then
    ⟨tc.2.2, tc.1, tc.2.1, [], true, false⟩
  else
    ⟨tc.2.2, tc.1, tc.2.1, [tc.1], false, true⟩

/-- Modelled from the spec: libs/tunnel.py (the Tunnel Portal) is not
under src. Section 4.3 of the design document specifies get_or_create on
a key: return the cached tunnel if present, otherwise invoke the factory
once, store the new tunnel and return it. Section 5 mandates mutual
exclusion around this operation, so a concurrent execution is some
serialization of atomic calls; the portal state is restricted to the one
destination key of the claim and cached tunnels are live. The result is
the tunnel returned, the new portal state, and whether the factory ran. -/
def getOrCreate (factoryTunnel : Nat) (p : Option Nat) :
    Nat × Option Nat × Bool :=
  match p with
  | some t => (t, some t, false)
  | none => (factoryTunnel, some factoryTunnel, true)

/-- N serialized get_or_create calls with the same key: the list of
tunnels observed by the callers, the final portal state, and the total
number of factory invocations. -/
def runCalls (factoryTunnel : Nat) : Option Nat → Nat → List Nat × Option Nat × Nat
  | p, 0 => ([], p, 0)
  | p, Nat.succ k =>
    let r := getOrCreate factoryTunnel p
    let rest := runCalls factoryTunnel r.2.1 k
    (r.1 :: rest.1, rest.2.1, (if r.2.2 then 1 else 0) + rest.2.2)

/-- Embedding of Container (dot) refresh with retry
(src/podman/libs/containers.py). The oracle gives, for each value of the
tries counter, whether that GetContainer call hits BrokenPipeError. The
result is the number of GetContainer calls made and whether the refresh
returned normally (true) or let the fault propagate (false). The source
recursion raises once tries exceeds 3. -/
def refreshTries (fails : Nat → Bool) (tries : Nat) : Nat × Bool :=
  if fails tries then
    if 3 < tries then (1, false)
    else
      let r := refreshTries fails (tries + 1)
      (r.1 + 1, r.2)
  else (1, true)
termination_by 4 - tries
decreasing_by
  simp_wf
  omega

/-- Outcome of a bounded observation of the kill polling loop, with the
poll iteration at which it fired. -/
inductive KillResult
  | stopped (n : Nat)
  | timedOut (n : Nat)
deriving DecidableEq, Repr

/-- Embedding of the polling loop of Container.kill
(src/podman/libs/containers.py). Time is counted in half-second ticks:
iteration n runs 2 multiplied-by wait ticks short of the deadline exactly
when n is at most 2 multiplied-by wait, since each prior iteration slept
0.5 s; the deadline test in the source is wait (truthiness) and timeout
strictly below the current time. The status oracle gives the container
status observed by the refresh of iteration n. Fuel bounds the
observation; none means the loop is still polling after fuel
iterations. -/
def killPoll (wait : Nat) (status : Nat → String) :
    Nat → Nat → Option KillResult
  | 0, _ => none
  | Nat.succ fuel, n =>
    if status n ≠ "running" then some (KillResult.stopped n)
    else if wait ≠ 0 ∧ 2 * wait < n then some (KillResult.timedOut n)
    else killPoll wait status fuel (n + 1)

/-- Modelled from the spec: FoldedString lives in libs/(init) which is not
under src; it is a string that compares case-insensitively, embedded as
comparison of lowercased strings. -/
def foldedEq (a b : String) : Bool := a.toLower == b.toLower

/-- Embedding of the polling loop of Pod.kill (src/podman/libs/pods.py):
identical shape, with the status comparison folded through
FoldedString. -/
def podKillPoll (wait : Nat) (status : Nat → String) :
    Nat → Nat → Option KillResult
  | 0, _ => none
  | Nat.succ fuel, n =>
    if foldedEq (status n) "running" = false then some (KillResult.stopped n)
    else if wait ≠ 0 ∧ 2 * wait < n then some (KillResult.timedOut n)
    else podKillPoll wait status fuel (n + 1)

/-- Recognizer for a Timeout outcome of a bounded poll observation. -/
def isTimeout : Option KillResult → Bool
  | some (KillResult.timedOut _) => true
  | _ => false

/-- Python truthiness of an optional boolean: None and False are falsy. -/
def pyTruthyBool : Option Bool → Bool
  | none => false
  | some b => b

/-- Python x or True with x an optional boolean, as in the pause
defaulting line of Container.commit. -/
def pyOrTrue (a : Option Bool) : Bool :=
  if pyTruthyBool a then a.getD false else true

/-- Python truthiness of an optional string: None and the empty string
are falsy. -/
def pyTruthyStr : Option String → Bool
  | none => false
  | some s => !(s == "")

/-- Python x or b with x an optional string. -/
def pyOrStr (a : Option String) (b : String) : String :=
  if pyTruthyStr a then a.getD "" else b

/-- Python x or the empty list with x an optional list. -/
def pyOrList (a : Option (List String)) : List String :=
  match a with
  | none => []
  | some l => if l.isEmpty then [] else l

/-- A change entry rejected by Container.commit: it starts with LABEL=
and contains fewer than two equals signs. -/
def labelBad (c : String) : Bool :=
  "LABEL=".isPrefixOf c &&
    decide ((c.toList.filter (fun ch => ch == '=')).length < 2)

/-- The argument tuple Container.commit passes to the daemon Commit
call. -/
structure CommitCall where
  cid : String
  image_name : String
  change : List String
  author : String
  message : String
  pause : Bool
deriving DecidableEq, Repr

/-- Embedding of Container.commit (src/podman/libs/containers.py):
defaulting of author, change, message and pause by Python or-expressions,
the LABEL validation loop, then the Commit call with the computed
arguments. user stands for the getpass user name. -/
def commit (cid image_name : String) (author0 : Option String)
    (change0 : Option (List String)) (message0 : Option String)
    (pause0 : Option Bool) (user : String) : Except String CommitCall :=
  let author := pyOrStr author0 user
  let change := pyOrList change0
  let message := pyOrStr message0 ""
  let pause := pyOrTrue pause0
  if change.any labelBad then
    Except.error "LABEL should have the format: LABEL=label=value"
  else
    Except.ok ⟨cid, image_name, change, author, message, pause⟩

/-- Embedding of Containers.exists (src/podman/libs/containers.py): the
reply field named exists is compared with 0; only equality yields
true. -/
def containerExists (reply : Int) : Bool :=
  if reply == 0 then true else false

/-- Status oracle that never leaves running. -/
def alwaysRunning : Nat → String := fun _ => "running"

/-- Status oracle that leaves running at iteration 2. -/
def stopsAtTwo : Nat → String := fun n => if n < 2 then "running" else "exited"

/-- Failure oracle on which every fetch hits BrokenPipeError. -/
def allFail : Nat → Bool := fun _ => true

/-- Concrete parse function for witnesses: a local unix URI with a socket
path, a remote URI with hostname and path but no username, and everything
else parses to empty components. -/
def parseStub : String → ParsedUrl := fun s =>
  if s = "unix:/run/podman/io.podman" then
    ⟨"/run/podman/io.podman", none, none, none⟩
  else if s = "ssh://host/path" then ⟨"/path", none, some "host", none⟩
  else ⟨"", none, none, none⟩

/-- Keyword arguments of a plain local construction. -/
def kwLocal : Kwargs := ⟨none, none, none, none, []⟩

/-- Keyword arguments carrying a remote URI whose parse has no
username. -/
def kwNoUser : Kwargs := ⟨some "ssh://host/path", none, none, none, []⟩

/-- C1: for every transport-session run, local or remote, and every
outcome of the enclosed call (normal return, daemon fault, unrelated
error), the channel-release event appears exactly once in the session
trace. -/
theorem transport_session_channel_closed_once (body : BodyOutcome) :
    channelCloses (runLocalSession body).1 = 1 ∧
      channelCloses (runRemoteSession body).1 = 1 :=
  ⟨rfl, rfl⟩

/-- C2 counterexample: with tunnel 7 cached in the portal for this
destination and the channel open failing, RemoteClient enter closes
tunnel 7 even though it was reused, not created, during this
acquisition; the claim says a reused tunnel is left open on this
path. -/
theorem remote_enter_closes_reused_tunnel :
    (remoteEnter (some 7) 99 false).created = false ∧
      (remoteEnter (some 7) 99 false).closedTunnels = [7] ∧
      (remoteEnter (some 7) 99 false).raised = true :=
  ⟨rfl, rfl, rfl⟩

/-- C2 amended: when the channel open fails, the error propagates and the
session closes the tunnel it used during this acquisition, whether it
created it or reused it from the portal; on a successful open no tunnel
is closed. -/
theorem remote_enter_failure_closes_used_tunnel (cached : Option Nat)
    (freshId : Nat) :
    ((remoteEnter cached freshId false).closedTunnels
        = [(remoteEnter cached freshId false).usedTunnel] ∧
      (remoteEnter cached freshId false).raised = true) ∧
      (remoteEnter cached freshId true).closedTunnels = [] := by
  cases cached <;> exact ⟨⟨rfl, rfl⟩, rfl⟩

/-- C3: on session release, local or remote, a pending varlink error is
re-raised as the TypedError produced by the fault translator, and any
other pending error propagates unchanged. -/
theorem session_exit_fault_translation (ident msg : String) (tag : Nat) :
    (localExit (some (PyExc.varlinkError ident msg))).2
        = ExitOutcome.raisedTyped (errorFactory ident msg) ∧
      (remoteExit (some (PyExc.varlinkError ident msg))).2
        = ExitOutcome.raisedTyped (errorFactory ident msg) ∧
      (localExit (some (PyExc.otherError tag))).2
        = ExitOutcome.propagated (PyExc.otherError tag) ∧
      (remoteExit (some (PyExc.otherError tag))).2
        = ExitOutcome.propagated (PyExc.otherError tag) :=
  ⟨rfl, rfl, rfl, rfl⟩

/-- Once the portal caches a tunnel, further get_or_create calls return
it unchanged and never invoke the factory. -/
theorem runCalls_cached (t x : Nat) :
    ∀ k, runCalls t (some x) k = (List.replicate k x, some x, 0) := by
  intro k
  induction k with
  | zero => rfl
  | succ k ih => simp [runCalls, getOrCreate, ih, List.replicate]

/-- C8: N get_or_create calls with the same destination key, serialized
by the portal lock, invoke the tunnel factory exactly once and every
caller observes the one tunnel the winner created. -/
theorem portal_get_or_create_single_winner (t n : Nat) :
    runCalls t none (n + 1) = (List.replicate (n + 1) t, some t, 1) := by
  simp [runCalls, getOrCreate, runCalls_cached, List.replicate]

/-- C10: Containers.exists returns true exactly when the reply field
named exists equals 0, and false for every other value. -/
theorem containers_exists_iff_zero (reply : Int) :
    containerExists reply = true ↔ reply = 0 := by
  simp [containerExists, beq_iff_eq]

/-- Witness for C10 at the reply value 0. -/
theorem containers_exists_witness : containerExists 0 = true :=
  (containers_exists_iff_zero 0).mpr rfl

/-- With wait zero the Python truthiness test disables the deadline, so
the container polling loop can never report a timeout, from any
iteration. -/
theorem killPoll_zero_noTimeout (status : Nat → String) :
    ∀ fuel n, isTimeout (killPoll 0 status fuel n) = false := by
  intro fuel
  induction fuel with
  | zero => intro n; rfl
  | succ fuel ih =>
    intro n
    by_cases h : status n = "running"
    · simp [killPoll, h, ih (n + 1)]
    · simp [killPoll, h, isTimeout]

/-- With wait zero the pod polling loop can never report a timeout. -/
theorem podKillPoll_zero_noTimeout (status : Nat → String) :
    ∀ fuel n, isTimeout (podKillPoll 0 status fuel n) = false := by
  intro fuel
  induction fuel with
  | zero => intro n; rfl
  | succ fuel ih =>
    intro n
    by_cases h : foldedEq (status n) "running" = false
    · simp [podKillPoll, h, isTimeout]
    · simp [podKillPoll, h, ih (n + 1)]

/-- With wait zero and a status that never leaves running, the container
polling loop is still polling after any number of iterations. -/
theorem killPoll_zero_neverStops (status : Nat → String)
    (hs : ∀ j, status j = "running") :
    ∀ fuel n, killPoll 0 status fuel n = none := by
  intro fuel
  induction fuel with
  | zero => intro n; rfl
  | succ fuel ih =>
    intro n
    simp [killPoll, hs n, ih (n + 1)]

/-- With wait zero and a status that never leaves running, the pod
polling loop is still polling after any number of iterations. -/
theorem podKillPoll_zero_neverStops (status : Nat → String)
    (hs : ∀ j, status j = "running") :
    ∀ fuel n, podKillPoll 0 status fuel n = none := by
  intro fuel
  induction fuel with
  | zero => intro n; rfl
  | succ fuel ih =>
    intro n
    simp [podKillPoll, hs n, foldedEq, ih (n + 1)]

/-- When the container polling loop reports stopped at iteration m, the
status observed there had left running and every earlier polled
iteration was still running. -/
theorem killPoll_stopped_first (wait : Nat) (status : Nat → String) :
    ∀ fuel n m, killPoll wait status fuel n = some (KillResult.stopped m) →
      status m ≠ "running" ∧ ∀ j, n ≤ j → j < m → status j = "running" := by
  intro fuel
  induction fuel with
  | zero => intro n m h; exact absurd h (by simp [killPoll])
  | succ fuel ih =>
    intro n m h
    by_cases hr : status n = "running"
    · by_cases ht : wait ≠ 0 ∧ 2 * wait < n
      · simp [killPoll, hr, ht] at h
      · simp [killPoll, hr, ht] at h
        obtain ⟨hm, hrun⟩ := ih (n + 1) m h
        refine ⟨hm, ?_⟩
        intro j hnj hjm
        rcases Nat.eq_or_lt_of_le hnj with heq | hlt
        · exact heq ▸ hr
        · exact hrun j hlt hjm
    · simp [killPoll, hr] at h
      subst h
      exact ⟨hr, fun j hnj hjm => absurd (Nat.lt_of_le_of_lt hnj hjm)
        (Nat.lt_irrefl _)⟩

/-- C6: with a wait of zero, the kill polling loops of Container and Pod
never report a timeout; the container loop returns at the first polled
iteration whose status has left running; and against a status that never
leaves running both loops poll indefinitely. -/
theorem kill_zero_wait_waits_forever (status : Nat → String) (fuel : Nat) :
    isTimeout (killPoll 0 status fuel 0) = false ∧
      isTimeout (podKillPoll 0 status fuel 0) = false ∧
      (∀ m, killPoll 0 status fuel 0 = some (KillResult.stopped m) →
        status m ≠ "running" ∧ ∀ j, j < m → status j = "running") ∧
      ((∀ j, status j = "running") →
        killPoll 0 status fuel 0 = none ∧ podKillPoll 0 status fuel 0 = none) := by
  refine ⟨killPoll_zero_noTimeout status fuel 0,
    podKillPoll_zero_noTimeout status fuel 0, ?_, ?_⟩
  · intro m h
    obtain ⟨hm, hrun⟩ := killPoll_stopped_first 0 status fuel 0 m h
    exact ⟨hm, fun j hj => hrun j (Nat.zero_le j) hj⟩
  · intro hs
    exact ⟨killPoll_zero_neverStops status hs fuel 0,
      podKillPoll_zero_neverStops status hs fuel 0⟩

/-- Witness for C6: the loop reports stopped at iteration 2 of the
oracle that stops there, giving a non-running status at 2 by the
theorem, and the always-running oracle leaves the loop polling after 4
iterations. -/
theorem kill_zero_wait_witness :
    stopsAtTwo 2 ≠ "running" ∧ killPoll 0 alwaysRunning 4 0 = none :=
  ⟨((kill_zero_wait_waits_forever stopsAtTwo 5).2.2.1 2 (by decide)).1,
    ((kill_zero_wait_waits_forever alwaysRunning 4).2.2.2 (fun _ => rfl)).1⟩

/-- C7 counterexample: with a 0-second deadline and a daemon that never
leaves running, the container kill loop is still polling after 20
iterations (ten seconds past the supposed deadline) and has not raised
Timeout, so the loop does not raise Timeout after the deadline
elapses. -/
theorem kill_zero_deadline_no_timeout_counterexample :
    killPoll 0 alwaysRunning 20 0 = none ∧
      isTimeout (killPoll 0 alwaysRunning 20 0) = false := by
  constructor <;> decide

/-- C7 amended: with a 0-second deadline and a daemon that never
transitions the resource out of running, the kill polling loop never
raises Timeout and never returns; wait zero means wait forever, so a
Timeout can arise only from a nonzero deadline. -/
theorem kill_zero_deadline_never_raises (status : Nat → String)
    (hs : ∀ j, status j = "running") (fuel : Nat) :
    killPoll 0 status fuel 0 = none ∧
      isTimeout (killPoll 0 status fuel 0) = false :=
  ⟨killPoll_zero_neverStops status hs fuel 0,
    killPoll_zero_noTimeout status fuel 0⟩

/-- Witness for the amended C7 at the always-running oracle with fuel
3. -/
theorem kill_zero_deadline_never_raises_witness :
    killPoll 0 alwaysRunning 3 0 = none :=
  (kill_zero_deadline_never_raises alwaysRunning (fun _ => rfl) 3).1

/-- C5: the refresh that backs container state re-fetch makes at most
four GetContainer calls, the initial fetch plus a bound of three
retries; when every attempt hits the transient broken-pipe fault it
makes exactly those four calls and lets the fault propagate; and the
fault propagates only once that bound is exhausted. -/
theorem refresh_retry_bound (fails : Nat → Bool) :
    (refreshTries fails 1).1 ≤ 4 ∧
      ((∀ k, fails k = true) → refreshTries fails 1 = (4, false)) ∧
      ((refreshTries fails 1).2 = false → (refreshTries fails 1).1 = 4) := by
  have e4 : refreshTries fails 4 = if fails 4 then (1, false) else (1, true) := by
    rw [refreshTries.eq_def]
    norm_num
  have e3 : refreshTries fails 3
      = if fails 3 then ((refreshTries fails 4).1 + 1, (refreshTries fails 4).2)
        else (1, true) := by
    rw [refreshTries.eq_def]
    norm_num
  have e2 : refreshTries fails 2
      = if fails 2 then ((refreshTries fails 3).1 + 1, (refreshTries fails 3).2)
        else (1, true) := by
    rw [refreshTries.eq_def]
    norm_num
  have e1 : refreshTries fails 1
      = if fails 1 then ((refreshTries fails 2).1 + 1, (refreshTries fails 2).2)
        else (1, true) := by
    rw [refreshTries.eq_def]
    norm_num
  refine ⟨?_, ?_, ?_⟩
  · cases hf1 : fails 1 <;> cases hf2 : fails 2 <;> cases hf3 : fails 3 <;>
      cases hf4 : fails 4 <;> simp [e1, e2, e3, e4, hf1, hf2, hf3, hf4]
  · intro h
    rw [e1, e2, e3, e4, h 1, h 2, h 3, h 4]
    rfl
  · intro h
    cases hf1 : fails 1 <;> cases hf2 : fails 2 <;> cases hf3 : fails 3 <;>
      cases hf4 : fails 4 <;>
      simp [e1, e2, e3, e4, hf1, hf2, hf3, hf4] at h ⊢

/-- Witness for C5: with every fetch failing, the refresh makes four
calls and propagates. -/
theorem refresh_retry_witness : refreshTries allFail 1 = (4, false) :=
  (refresh_retry_bound allFail).2.1 (fun _ => rfl)

/-- The Python pause defaulting expression yields True for every caller
argument. -/
theorem pyOrTrue_eq_true (a : Option Bool) : pyOrTrue a = true := by
  cases a with
  | none => rfl
  | some b => cases b <;> rfl

/-- C9: whenever Container.commit reaches the daemon Commit call, the
pause argument it passes is True, for every caller-supplied pause value;
in particular a caller pause of False is coerced to True by the
or-defaulting. -/
theorem commit_pause_always_true (cid image_name : String)
    (author0 : Option String) (change0 : Option (List String))
    (message0 : Option String) (pause0 : Option Bool) (user : String)
    (call : CommitCall)
    (h : commit cid image_name author0 change0 message0 pause0 user
      = Except.ok call) :
    call.pause = true := by
  unfold commit at h
  by_cases hc : (pyOrList change0).any labelBad = true
  · rw [if_pos hc] at h
    exact Except.noConfusion h
  · rw [if_neg hc] at h
    injection h with h1
    subst h1
    exact pyOrTrue_eq_true pause0

/-- Witness for C9: committing with a caller-supplied pause of False
produces a Commit call whose pause is True. -/
theorem commit_pause_witness :
    (CommitCall.mk "c" "img" [] "u" "" true).pause = true :=
  commit_pause_always_true "c" "img" none none none (some false) "u"
    (CommitCall.mk "c" "img" [] "u" "" true) rfl

/-- C4: the factory succeeds exactly on valid input, failing when the
uri or interface is absent, the uri path is empty, an unknown keyword
argument is supplied, or a supplied remote uri parses without username,
path, or hostname; and each missing remote field is named by the error
raised. -/
theorem factory_validation (parse : String → ParsedUrl)
    (uri intf : Option String) (kw : Kwargs) :
    isOkB (factory parse uri intf kw) = validInput parse uri intf kw ∧
      (∀ u i r, uri = some u → intf = some i → kw.extra_keys = [] →
        (parse u).path ≠ "" → kw.remote_uri = some r →
        ((parse r).username = none →
          factory parse uri intf kw = Except.error (requiredMsg "username")) ∧
        ((parse r).username ≠ none → (parse r).path = "" →
          factory parse uri intf kw = Except.error (requiredMsg "path")) ∧
        ((parse r).username ≠ none → (parse r).path ≠ "" →
          (parse r).hostname = none →
          factory parse uri intf kw = Except.error (requiredMsg "hostname"))) := by
  constructor
  · cases uri with
    | none => rfl
    | some u =>
      cases intf with
      | none => rfl
      | some i =>
        by_cases he : kw.extra_keys = []
        · by_cases hp : (parse u).path = ""
          · simp [factory, validInput, he, hp, isOkB]
          · cases hr : kw.remote_uri with
            | none => simp [factory, validInput, he, hp, hr, isOkB]
            | some r =>
              by_cases hu : (parse r).username = none
              · simp [factory, validInput, he, hp, hr, hu, isOkB,
                  Option.isSome_iff_ne_none]
              · by_cases hrp : (parse r).path = ""
                · simp [factory, validInput, he, hp, hr, hu, hrp, isOkB,
                    Option.isSome_iff_ne_none]
                · by_cases hh : (parse r).hostname = none
                  · simp [factory, validInput, he, hp, hr, hu, hrp, hh, isOkB,
                      Option.isSome_iff_ne_none]
                  · simp [factory, validInput, he, hp, hr, hu, hrp, hh, isOkB,
                      Option.isSome_iff_ne_none]
        · simp [factory, validInput, he, isOkB,
            List.isEmpty_iff]
  · intro u i r hu hi he hp hr
    subst hu
    subst hi
    refine ⟨?_, ?_, ?_⟩
    · intro hn
      simp [factory, he, hp, hr, hn]
    · intro hn hrp
      simp [factory, he, hp, hr, hn, hrp]
    · intro hn hrp hh
      simp [factory, he, hp, hr, hn, hrp, hh]

/-- Witness for C4: a valid local construction succeeds, and a remote
uri whose parse lacks a username fails with the error naming
username. -/
theorem factory_validation_witness :
    isOkB (factory parseStub (some "unix:/run/podman/io.podman")
        (some "io.podman") kwLocal) = true ∧
      factory parseStub (some "unix:/run/podman/io.podman")
        (some "io.podman") kwNoUser = Except.error (requiredMsg "username") := by
  constructor
  · rw [(factory_validation parseStub (some "unix:/run/podman/io.podman")
      (some "io.podman") kwLocal).1]
    decide
  · exact ((factory_validation parseStub (some "unix:/run/podman/io.podman")
      (some "io.podman") kwNoUser).2 "unix:/run/podman/io.podman" "io.podman"
      "ssh://host/path" rfl rfl rfl (by decide) rfl).1 rfl

end PodmanSpec
